import Mathlib

/-!
Verification development for the log-sniffer dashboard server.

This file gives a shallow embedding of the server's session-scoped
configuration store (server/cookie-session-storage.ts), the configuration
HTTP routes (server/routes.ts and the bundled server), the LLM provider
router and adapters (server/services/llm/*), and the summary/insight
orchestrator (server/services/llm-service.ts), together with theorems about
the embedded definitions.

Modelling conventions:
* Timestamps are epoch milliseconds as `Int` (JS `Date.now()`), passed
  explicitly to each operation.
* The store is modelled per browser slot: the cookie / session-id plumbing
  resolves one map entry per browser, so the state is `Option Session`
  (`none` = no entry in the map for this browser's cookie). Session-id
  strings and cookie writes are opaque and carry no data the theorems
  mention, so they are not represented.
* JS field absence/`undefined` is `Option`; JS string falsiness ("" is
  falsy) is modelled where the source relies on it.
* Network calls performed by adapters are reified as request values
  (`GenAction`), not executed.
-/

/-- `SESSION_TIMEOUT` from cookie-session-storage.ts: 30 * 60 * 1000 ms. -/
def SESSION_TIMEOUT : Int := 30 * 60 * 1000

/-- The stored upstream (Snyk) sub-record: the payload fields plus
`expiresAt`, as written by `setApiConfiguration` (`{...config, expiresAt}`). -/
structure StoredSnykConfig where
  snykApiToken : String
  groupId : Option String
  orgId : Option String
  apiVersion : Option String
  expiresAt : Int
deriving DecidableEq

/-- The upstream payload as returned by `getApiConfiguration`
(the stored record with `expiresAt` stripped). -/
structure SnykConfigPayload where
  snykApiToken : String
  groupId : Option String
  orgId : Option String
  apiVersion : Option String
deriving DecidableEq

/-- `const \x7b expiresAt, ...config \x7d = session.snykConfig` : drop the expiry field. -/
def StoredSnykConfig.strip (c : StoredSnykConfig) : SnykConfigPayload :=
  ⟨c.snykApiToken, c.groupId, c.orgId, c.apiVersion⟩

/-- `LLMConfig` from server/services/llm/types.ts; also the payload
returned by `getLlmConfiguration` (expiry stripped, apiKey kept). -/
structure LLMConfig where
  provider : String
  model : String
  apiKey : String
  baseUrl : Option String
deriving DecidableEq

/-- `LlmSessionConfig` from cookie-session-storage.ts: LLMConfig plus `expiresAt`. -/
structure StoredLlmConfig where
  provider : String
  model : String
  apiKey : String
  baseUrl : Option String
  expiresAt : Int
deriving DecidableEq

/-- `const \x7b expiresAt, ...rest \x7d = session.llmConfig` : drop the expiry field. -/
def StoredLlmConfig.strip (c : StoredLlmConfig) : LLMConfig :=
  ⟨c.provider, c.model, c.apiKey, c.baseUrl⟩

/-- `CookieSession` from cookie-session-storage.ts (the opaque `id` string is
not represented; see the modelling conventions above). -/
structure Session where
  snykConfig : Option StoredSnykConfig
  llmConfig : Option StoredLlmConfig
  createdAt : Int
  lastAccessed : Int
deriving DecidableEq

/-- `getOrCreateSessionId` + the map lookup that every operation performs:
if the inbound cookie matches a stored session that is not idle-expired,
refresh `lastAccessed` and use it; otherwise create a fresh empty session
record (and set the cookie). -/
def getOrCreateSession (now : Int) (s : Option Session) : Session :=
  match s with
  | some sess =>
      if now - sess.lastAccessed > SESSION_TIMEOUT then
        { snykConfig := none, llmConfig := none, createdAt := now, lastAccessed := now }
      else
        { sess with lastAccessed := now }
  | none => { snykConfig := none, llmConfig := none, createdAt := now, lastAccessed := now }

/-- `setApiConfiguration(req, res, config, expirationMinutes = 30)`:
overwrite the snyk sub-record with the payload plus
`expiresAt = Date.now() + expirationMinutes * 60 * 1000`. -/
def setApiConfiguration (now : Int) (config : SnykConfigPayload) (expirationMinutes : Int)
    (s : Option Session) : Option Session :=
  let sess := getOrCreateSession now s
  some { sess with
    snykConfig := some ⟨config.snykApiToken, config.groupId, config.orgId, config.apiVersion,
      now + expirationMinutes * 60 * 1000⟩ }

/-- `getApiConfiguration`: `null` when the sub-record is missing, or when
`Date.now() > expiresAt` (in which case the sub-record is deleted);
otherwise the payload with `expiresAt` stripped. Returns the payload
(`none` = the route's `null`) together with the updated store state. -/
def getApiConfiguration (now : Int) (s : Option Session) :
    Option SnykConfigPayload × Option Session :=
  let sess := getOrCreateSession now s
  match sess.snykConfig with
  | none => (none, some sess)
  | some c =>
      if now > c.expiresAt then (none, some { sess with snykConfig := none })
      else (some c.strip, some sess)

/-- `getTimeUntilExpiration`: `Math.max(0, Math.floor(remainingMs / 60000))`,
or `null` when no snyk sub-record exists. (For nonnegative remaining time,
`Int` division toward zero agrees with `Math.floor`; negative remainders are
clamped to 0 by the `max` either way.) -/
def getTimeUntilExpiration (now : Int) (s : Option Session) :
    Option Int × Option Session :=
  let sess := getOrCreateSession now s
  match sess.snykConfig with
  | none => (none, some sess)
  | some c => (some (max 0 ((c.expiresAt - now) / 60000)), some sess)

/-- `clearConfiguration`: resolves the session, deletes `snykConfig`, clears
the cookie, and then deletes the whole session record from the map
(`this.sessions.delete(sessionId)`), leaving the browser's slot empty. -/
def clearConfiguration (_now : Int) (_s : Option Session) : Option Session :=
  none

/-- `extendConfiguration(req, res, additionalMinutes = 30)`: fails when the
snyk sub-record is missing or already expired; otherwise pushes `expiresAt`
to `Date.now() + additionalMinutes * 60 * 1000`. -/
def extendConfiguration (now : Int) (additionalMinutes : Int) (s : Option Session) :
    Bool × Option Session :=
  let sess := getOrCreateSession now s
  match sess.snykConfig with
  | none => (false, some sess)
  | some c =>
      if now > c.expiresAt then (false, some sess)
      else (true, some { sess with
        snykConfig := some { c with expiresAt := now + additionalMinutes * 60 * 1000 } })

/-- `setLlmConfiguration(req, res, config, expirationMinutes = 30)`. -/
def setLlmConfiguration (now : Int) (config : LLMConfig) (expirationMinutes : Int)
    (s : Option Session) : Option Session :=
  let sess := getOrCreateSession now s
  some { sess with
    llmConfig := some ⟨config.provider, config.model, config.apiKey, config.baseUrl,
      now + expirationMinutes * 60 * 1000⟩ }

/-- `getLlmConfiguration`: same lazy-expiry discipline as
`getApiConfiguration`, over the llm sub-record. -/
def getLlmConfiguration (now : Int) (s : Option Session) :
    Option LLMConfig × Option Session :=
  let sess := getOrCreateSession now s
  match sess.llmConfig with
  | none => (none, some sess)
  | some c =>
      if now > c.expiresAt then (none, some { sess with llmConfig := none })
      else (some c.strip, some sess)

/-- `clearLlmConfiguration`: deletes only the llm sub-record; the session
record itself stays in the map. -/
def clearLlmConfiguration (now : Int) (s : Option Session) : Option Session :=
  some { getOrCreateSession now s with llmConfig := none }

/-- ASCII whitespace, for modelling JS `String.prototype.trim` (which also
trims rarer Unicode space characters; only ASCII whitespace occurs in the
properties below). -/
def isJsSpace (c : Char) : Bool :=
  c == ' ' || c == '\t' || c == '\n' || c == '\r' || c == '\x0b' || c == '\x0c'

/-- Drop leading whitespace characters. -/
def dropLeadingSpace : List Char → List Char
  | [] => []
  | c :: cs => if isJsSpace c then dropLeadingSpace cs else c :: cs

/-- JS `s.trim()`: strip leading and trailing whitespace. -/
def jsTrim (s : String) : String :=
  String.mk ((dropLeadingSpace (dropLeadingSpace s.data).reverse).reverse)

/-- JS `s.toLowerCase()` over the ASCII provider-name alphabet. -/
def jsToLower (s : String) : String :=
  String.mk (s.data.map Char.toLower)

/-- A JSON-ish request-body field value, as the route handlers see it:
absent (`undefined`), a string, or some non-string value (of which only
JS truthiness matters to the handlers). -/
inductive JsVal where
  | undef
  | str (s : String)
  | other (truthy : Bool)
deriving DecidableEq

/-- Response body of GET /api/config (and, on success, POST /api/config):
`\x7b ...safeConfig, snykApiToken: "***", expiresInMinutes \x7d`. The
debug-only `sessionId` echo is an opaque id and is not represented. -/
structure ConfigGetResponse where
  groupId : Option String
  orgId : Option String
  apiVersion : Option String
  snykApiToken : String
  expiresInMinutes : Option Int
deriving DecidableEq

/-- A route outcome: a 400 `\x7b error \x7d` body, or a 200 JSON body. -/
inductive RouteResult (α : Type) where
  | badRequest (error : String)
  | ok (body : α)
deriving DecidableEq

/-- GET /api/config: `null` when no live config; otherwise the stored fields
with the token replaced by the literal `"***"`. -/
def getConfigRoute (now : Int) (s : Option Session) : Option ConfigGetResponse :=
  match getApiConfiguration now s with
  | (none, _) => none
  | (some config, s1) =>
      let tr := (getTimeUntilExpiration now s1).1
      some ⟨config.groupId, config.orgId, config.apiVersion, "***", tr⟩

/-- Request body of POST /api/config. The token is modelled as a string
(`""` = JS-falsy, rejected by `if (!snykApiToken)`); non-string tokens are
outside the model. -/
structure PostConfigBody where
  snykApiToken : String
  groupId : Option String
  orgId : Option String
  apiVersion : Option String
deriving DecidableEq

/-- POST /api/config. `connOk`/`connMsg` stand for the outcome of the live
`snykApi.testConnection()` call (an external collaborator). On a 400 the
session state is untouched (the connectivity test runs before any store
write). -/
def postConfigRoute (now : Int) (s : Option Session) (body : PostConfigBody)
    (connOk : Bool) (connMsg : String) : RouteResult ConfigGetResponse × Option Session :=
  if body.snykApiToken.isEmpty then (.badRequest "Snyk API token is required", s)
  else if !connOk then (.badRequest connMsg, s)
  else
    let apiVersion := match body.apiVersion with
      | some v => if v.isEmpty then "2024-10-15" else v
      | none => "2024-10-15"
    let s1 := setApiConfiguration now ⟨body.snykApiToken, body.groupId, body.orgId, some apiVersion⟩ 30 s
    let tr := (getTimeUntilExpiration now s1).1
    (.ok ⟨body.groupId, body.orgId, some apiVersion, "***", tr⟩, s1)

/-- Response body of GET /api/llm-config (and POST /api/llm-config on
success): `\x7b provider, model, configured: true \x7d` - no apiKey field. -/
structure LlmGetResponse where
  provider : String
  model : String
  configured : Bool
deriving DecidableEq

/-- GET /api/llm-config. -/
def getLlmRoute (now : Int) (s : Option Session) : Option LlmGetResponse :=
  match (getLlmConfiguration now s).1 with
  | none => none
  | some c => some ⟨c.provider, c.model, true⟩

/-- POST /api/llm-config: 400 unless provider, model and apiKey are all
truthy strings (`!v || typeof v !== "string"`); otherwise stores the
trimmed values with a 30-minute TTL and echoes provider/model. -/
def postLlmRoute (now : Int) (s : Option Session)
    (provider model apiKey baseUrl : JsVal) : RouteResult LlmGetResponse × Option Session :=
  match provider, model, apiKey with
  | .str p, .str m, .str k =>
      if p.isEmpty || m.isEmpty || k.isEmpty then
        (.badRequest "provider, model, and apiKey are required", s)
      else
        let b : Option String := match baseUrl with
          | .str b0 => if (jsTrim b0).isEmpty then none else some (jsTrim b0)
          | _ => none
        let s1 := setLlmConfiguration now ⟨jsTrim p, jsTrim m, jsTrim k, b⟩ 30 s
        (.ok ⟨jsTrim p, jsTrim m, true⟩, s1)
  | _, _, _ => (.badRequest "provider, model, and apiKey are required", s)

/-- Erase the stored secret token (its value, not its presence). -/
def scrubSnyk (c : StoredSnykConfig) : StoredSnykConfig := { c with snykApiToken := "" }

/-- Erase the stored LLM API key (its value, not its presence). -/
def scrubLlm (c : StoredLlmConfig) : StoredLlmConfig := { c with apiKey := "" }

/-- Erase both secrets from a session, keeping everything else. Two states
with equal scrubs differ only in secret values. -/
def scrubSession (sess : Session) : Session :=
  { sess with
    snykConfig := sess.snykConfig.map scrubSnyk
    llmConfig := sess.llmConfig.map scrubLlm }

/-- Message roles from server/services/llm/types.ts. -/
inductive Role where
  | user
  | assistant
  | system
deriving DecidableEq

/-- `Message` from server/services/llm/types.ts. -/
structure Message where
  role : Role
  content : String
deriving DecidableEq

/-- `UNCONFIGURED_MESSAGE` from server/services/llm/index.ts. -/
def UNCONFIGURED_MESSAGE : String :=
  "AI is not configured. Please configure an AI provider (provider, model, and API key) in the settings."

/-- The adapter selected by `getProvider`: the no-op stub or one of the
three provider families (carrying the configuration it was built from). -/
inductive ProviderChoice where
  | noop
  | gemini (config : LLMConfig)
  | openai (config : LLMConfig)
  | anthropic (config : LLMConfig)
deriving DecidableEq

/-- `getProvider` from server/services/llm/index.ts: no-op when the config
is null or any of provider/model/apiKey is empty or whitespace-only
(`!config?.provider?.trim() || ...`); otherwise dispatch on the
lower-cased (untrimmed) provider name; unrecognized names fall back to the
no-op adapter. -/
def getProvider (config : Option LLMConfig) : ProviderChoice :=
  match config with
  | none => .noop
  | some cfg =>
      if (jsTrim cfg.provider).isEmpty || (jsTrim cfg.model).isEmpty
          || (jsTrim cfg.apiKey).isEmpty then
        .noop
      else
        let provider := jsToLower cfg.provider
        if provider == "gemini" || provider == "google" || provider == "google gemini" then
          .gemini cfg
        else if provider == "openai" || provider == "custom" then
          .openai cfg
        else if provider == "anthropic" || provider == "claude" then
          .anthropic cfg
        else
          .noop

/-- The provider-name strings recognized by `getProvider`. -/
def recognizedProviders : List String :=
  ["gemini", "google", "google gemini", "openai", "custom", "anthropic", "claude"]

/-- One entry of the Gemini `contents` array: a role and a `parts` list
(each part holding one text span). -/
structure GeminiContent where
  role : String
  parts : List String
deriving DecidableEq

/-- gemini-provider.ts: map each message to `\x7b role, parts \x7d` (assistant
becomes "model", everything else "user"); if the resulting list is empty,
push one empty-content user entry. -/
def geminiContents (messages : List Message) : List GeminiContent :=
  let contents := messages.map
    (fun m => ⟨if m.role == .assistant then "model" else "user", [m.content]⟩)
  if contents.isEmpty then [⟨"user", [""]⟩] else contents

/-- A `\x7b role, content \x7d` message as sent to the OpenAI or Anthropic
chat APIs. -/
structure ChatApiMessage where
  role : String
  content : String
deriving DecidableEq

/-- `openAiRole` from openai-provider.ts: maps "model" to "assistant" and is
the identity otherwise; over the three-role `Message` vocabulary (which has
no "model") it is the identity on role names. -/
def openAiRole : Role → String
  | .user => "user"
  | .assistant => "assistant"
  | .system => "system"

/-- openai-provider.ts: `messages.map(m => (\x7b role: openAiRole(m.role),
content: m.content \x7d))` - no empty-list substitution. -/
def openAiMessages (messages : List Message) : List ChatApiMessage :=
  messages.map (fun m => ⟨openAiRole m.role, m.content⟩)

/-- `config.baseUrl?.replace(/\/$/, "")`: strip one trailing slash. -/
def stripTrailingSlash (s : String) : String :=
  if s.endsWith "/" then s.dropRight 1 else s

/-- openai-provider.ts: `config.baseUrl?.replace(/\/$/, "") ||
"https://api.openai.com/v1"` (the default also applies when the stripped
URL is the empty string, which is JS-falsy). -/
def openAiBaseUrl (config : LLMConfig) : String :=
  match config.baseUrl with
  | some b =>
      let b1 := stripTrailingSlash b
      if b1.isEmpty then "https://api.openai.com/v1" else b1
  | none => "https://api.openai.com/v1"

/-- anthropic-provider.ts: non-system messages mapped to user/assistant
roles, in order - no empty-list substitution. -/
def anthropicApiMessages (messages : List Message) : List ChatApiMessage :=
  (messages.filter (fun m => !(m.role == .system))).map
    (fun m => ⟨if m.role == .assistant then "assistant" else "user", m.content⟩)

/-- anthropic-provider.ts: the `system` local - the content of the last
system-role message, if any. -/
def anthropicSystemValue (messages : List Message) : Option String :=
  messages.foldl (fun acc m => if m.role == .system then some m.content else acc) none

/-- `if (system) body.system = system`: the body's system field, absent when
no system message was seen or its content is the (JS-falsy) empty string. -/
def anthropicSystemField (messages : List Message) : Option String :=
  match anthropicSystemValue messages with
  | some c => if c.isEmpty then none else some c
  | none => none

/-- What one `generateText` call does, reified: either a pure result with no
network traffic, or an outgoing HTTP request to one provider family.
Generation options (max tokens, temperature, top-p, top-k) are numeric
pass-throughs no claim mentions and are omitted from the request value. -/
inductive GenAction where
  | pureText (text : String)
  | geminiCall (model : String) (contents : List GeminiContent)
  | openaiCall (url : String) (model : String) (messages : List ChatApiMessage)
  | anthropicCall (model : String) (system : Option String) (messages : List ChatApiMessage)
deriving DecidableEq

/-- `generateText` of the adapter selected by `getProvider`: the no-op stub
returns `UNCONFIGURED_MESSAGE` without any request; each real adapter builds
its provider-specific request from the message list. -/
def generateText (p : ProviderChoice) (messages : List Message) : GenAction :=
  match p with
  | .noop => .pureText UNCONFIGURED_MESSAGE
  | .gemini cfg => .geminiCall cfg.model (geminiContents messages)
  | .openai cfg =>
      .openaiCall (openAiBaseUrl cfg ++ "/chat/completions") cfg.model (openAiMessages messages)
  | .anthropic cfg =>
      .anthropicCall cfg.model (anthropicSystemField messages) (anthropicApiMessages messages)

/-- The `content` of an audit-log record, restricted to the two fields the
orchestrator reads (`user_email`, `user_id`); `none` on a field means the
property is absent, and the empty string is JS-falsy. -/
structure AuditContent where
  user_email : Option String
  user_id : Option String
deriving DecidableEq

/-- An audit-log record as llm-service.ts receives it (`id` is an opaque
string no orchestrator code reads and is not represented); `created` is
epoch milliseconds (`new Date(log.created)` compared numerically). -/
structure AuditLog where
  event : String
  created : Int
  orgId : Option String
  groupId : Option String
  projectId : Option String
  content : Option AuditContent
deriving DecidableEq

/-- The `\x7b event, created, content \x7d` projection used for
`logSummary`. -/
structure LogEntry where
  event : String
  created : Int
  content : Option AuditContent
deriving DecidableEq

/-- `log => (\x7b event: log.event, created: log.created, content: log.content \x7d)`. -/
def AuditLog.toEntry (l : AuditLog) : LogEntry :=
  ⟨l.event, l.created, l.content⟩

/-- The filter `new Date(log.created) >= oneDayAgo` with
`oneDayAgo = Date.now() - 24 * 60 * 60 * 1000`. -/
def isRecent (now : Int) (l : AuditLog) : Bool :=
  decide (now - 86400000 ≤ l.created)

/-- JS string truthiness as an Option: `some s` survives iff `s` is a
nonempty string. -/
def truthyStr : Option String → Option String
  | some s => if s.isEmpty then none else some s
  | none => none

/-- `(content?.user_email || content?.user_id || "Unknown")`. -/
def userIdentifier (e : LogEntry) : String :=
  match e.content with
  | none => "Unknown"
  | some c =>
      match truthyStr c.user_email with
      | some s => s
      | none =>
          match truthyStr c.user_id with
          | some s => s
          | none => "Unknown"

/-- One step of `acc[log.event] = (acc[log.event] || 0) + 1` on a JS object
kept as an insertion-ordered association list (event names are non-numeric
strings, so JS preserves insertion order for them). -/
def insertEventCount (acc : List (String × Nat)) (ev : String) : List (String × Nat) :=
  if acc.any (fun p => p.1 == ev) then
    acc.map (fun p => if p.1 == ev then (p.1, p.2 + 1) else p)
  else acc ++ [(ev, 1)]

/-- `eventSummary`: the event-frequency histogram over `logSummary`, in
first-occurrence order (JS `Object.entries` order). -/
def eventSummary (entries : List LogEntry) : List (String × Nat) :=
  entries.foldl (fun acc e => insertEventCount acc e.event) []

/-- `uniqueUsers`: `new Set(logSummary.map(...)).size`. -/
def uniqueUsers (entries : List LogEntry) : Nat :=
  ((entries.map userIdentifier).eraseDups).length

/-- Insert an entry into a count-descending list, before any entry of equal
count (the entry being inserted comes from earlier in the original
order). -/
def insertCountDesc (x : String × Nat) : List (String × Nat) → List (String × Nat)
  | [] => [x]
  | y :: ys => if y.2 ≤ x.2 then x :: y :: ys else y :: insertCountDesc x ys

/-- Stable sort by count descending: the order JS `Array.prototype.sort`
(guaranteed stable) produces under the comparator `([, a], [, b]) => b - a`. -/
def sortByCountDesc (l : List (String × Nat)) : List (String × Nat) :=
  l.foldr insertCountDesc []

/-- `topEvents`: sort the histogram by count descending (stably), take
five, render "event: count" joined by ", ". -/
def topEvents (entries : List LogEntry) : String :=
  let sorted := sortByCountDesc (eventSummary entries)
  String.intercalate ", " ((sorted.take 5).map (fun p => p.1 ++ ": " ++ toString p.2))

/-- The statistics `generateExecutiveSummary` interpolates into its prompt:
`logSummary.length` events, `uniqueUsers` users, and the `topEvents` line.
(The interpolated current date is a rendering of `now`, identical whenever
`now` is, and is not separately represented.) -/
structure SummaryStats where
  eventCount : Nat
  uniqueUsers : Nat
  topEvents : String
deriving DecidableEq

/-- What `generateExecutiveSummary` does before any provider involvement:
either return a fixed message (no `getProvider`/`generateText` call and no
network traffic), or proceed to call the provider with a prompt built from
the given statistics. -/
inductive SummaryAction where
  | fixedMessage (text : String)
  | providerCall (stats : SummaryStats)
deriving DecidableEq

/-- The short-circuit string returned when no recent logs remain. -/
def noRecentLogsMessage : String :=
  "No recent audit logs found in the last 24 hours. Please check if your Snyk organization has recent activity."

/-- The statistics block computed from `logSummary`. -/
def summaryStatsOf (entries : List LogEntry) : SummaryStats :=
  ⟨entries.length, uniqueUsers entries, topEvents entries⟩

/-- `generateExecutiveSummary` (llm-service.ts lines 10-85) up to the
provider call: filter to records with `created >= now - 24h`; take the
first 200 as `logSummary`; if no recent records remain, return the fixed
message; otherwise call the provider with the prompt statistics. -/
def generateExecutiveSummaryAction (now : Int) (auditLogs : List AuditLog) : SummaryAction :=
  let recentLogs := auditLogs.filter (isRecent now)
  let logSummary := (recentLogs.take 200).map AuditLog.toEntry
  if recentLogs.isEmpty then .fixedMessage noRecentLogsMessage
  else .providerCall (summaryStatsOf logSummary)

/-- JSON values as produced by `JSON.parse`. Numeric literals are kept as
their source lexeme: no claim inspects a numeric value, only whether a
value is a string/array. -/
inductive Json where
  | null
  | bool (b : Bool)
  | num (lexeme : String)
  | str (s : String)
  | arr (elements : List Json)
  | obj (members : List (String × Json))

/-- The four JSON whitespace characters. -/
def isJsonWs (c : Char) : Bool :=
  c == ' ' || c == '\t' || c == '\n' || c == '\r'

/-- Drop leading JSON whitespace. -/
def skipWs : List Char → List Char
  | [] => []
  | c :: cs => if isJsonWs c then skipWs cs else c :: cs

/-- Hexadecimal digit value. -/
def hexVal (c : Char) : Option Nat :=
  if '0' ≤ c ∧ c ≤ '9' then some (c.toNat - 48)
  else if 'a' ≤ c ∧ c ≤ 'f' then some (c.toNat - 87)
  else if 'A' ≤ c ∧ c ≤ 'F' then some (c.toNat - 55)
  else none

/-- JSON string body (after the opening quote): literal characters, the
escape sequences, and `\uXXXX` (code points outside `Char`'s range, i.e.
lone surrogates, are out of the model). Unescaped control characters are a
syntax error. -/
def parseStringChars : List Char → List Char → Option (String × List Char)
  | acc, '"' :: rest => some (String.mk acc.reverse, rest)
  | acc, '\\' :: c :: rest =>
      match c with
      | '"' => parseStringChars ( '"' :: acc) rest
      | '\\' => parseStringChars ( '\\' :: acc) rest
      | '/' => parseStringChars ( '/' :: acc) rest
      | 'b' => parseStringChars ( '\x08' :: acc) rest
      | 'f' => parseStringChars ( '\x0c' :: acc) rest
      | 'n' => parseStringChars ( '\n' :: acc) rest
      | 'r' => parseStringChars ( '\r' :: acc) rest
      | 't' => parseStringChars ( '\t' :: acc) rest
      | 'u' =>
          match rest with
          | h1 :: h2 :: h3 :: h4 :: rest2 =>
              match hexVal h1, hexVal h2, hexVal h3, hexVal h4 with
              | some a, some b, some c2, some d =>
                  parseStringChars (Char.ofNat (((a * 16 + b) * 16 + c2) * 16 + d) :: acc) rest2
              | _, _, _, _ => none
          | _ => none
      | _ => none
  | acc, c :: rest => if c.toNat < 32 then none else parseStringChars (c :: acc) rest
  | _, [] => none

/-- Longest prefix of decimal digits. -/
def spanDigits : List Char → List Char × List Char
  | [] => ([], [])
  | c :: cs =>
      if c.isDigit then
        let (d, r) := spanDigits cs
        (c :: d, r)
      else ([], c :: cs)

/-- JSON integer part: `0`, or a nonzero digit followed by digits. -/
def parseIntPart (cs : List Char) : Option (List Char × List Char) :=
  match cs with
  | '0' :: r => some (['0'], r)
  | c :: _ => if c.isDigit then some (spanDigits cs) else none
  | [] => none

/-- JSON fraction part (possibly empty). -/
def parseFrac (cs : List Char) : Option (List Char × List Char) :=
  match cs with
  | '.' :: r =>
      let (d, r2) := spanDigits r
      if d.isEmpty then none else some ( '.' :: d, r2)
  | _ => some ([], cs)

/-- JSON exponent part (possibly empty). -/
def parseExp (cs : List Char) : Option (List Char × List Char) :=
  match cs with
  | c :: r =>
      if c == 'e' || c == 'E' then
        let (sgn, r1) : List Char × List Char :=
          match r with
          | s :: r2 => if s == '+' || s == '-' then ([s], r2) else ([], r)
          | [] => ([], r)
        let (d, r2) := spanDigits r1
        if d.isEmpty then none else some (c :: (sgn ++ d), r2)
      else some ([], cs)
  | [] => some ([], cs)

/-- A JSON number lexeme (kept as its source text). -/
def parseNumberLexeme (cs : List Char) : Option (String × List Char) :=
  let (neg, cs1) : List Char × List Char :=
    match cs with
    | '-' :: r => (['-'], r)
    | _ => ([], cs)
  match parseIntPart cs1 with
  | none => none
  | some (ip, cs2) =>
      match parseFrac cs2 with
      | none => none
      | some (fp, cs3) =>
          match parseExp cs3 with
          | none => none
          | some (ep, cs4) => some (String.mk (neg ++ ip ++ fp ++ ep), cs4)

mutual

/-- One JSON value (recursive-descent, fuel-bounded; the fuel passed by
`jsonParse` always suffices for its input). -/
def parseValue : Nat → List Char → Option (Json × List Char)
  | 0, _ => none
  | Nat.succ fuel, cs =>
      match skipWs cs with
      | '{' :: r =>
          match skipWs r with
          | '}' :: rest => some (.obj [], rest)
          | _ => parseMembers fuel r []
      | '[' :: r =>
          match skipWs r with
          | ']' :: rest => some (.arr [], rest)
          | _ => parseElements fuel r []
      | '"' :: r => (parseStringChars [] r).map (fun p => (Json.str p.1, p.2))
      | 't' :: 'r' :: 'u' :: 'e' :: r => some (.bool true, r)
      | 'f' :: 'a' :: 'l' :: 's' :: 'e' :: r => some (.bool false, r)
      | 'n' :: 'u' :: 'l' :: 'l' :: r => some (.null, r)
      | rest => (parseNumberLexeme rest).map (fun p => (Json.num p.1, p.2))

/-- Comma-separated array elements up to the closing bracket. -/
def parseElements : Nat → List Char → List Json → Option (Json × List Char)
  | 0, _, _ => none
  | Nat.succ fuel, cs, acc =>
      match parseValue fuel cs with
      | none => none
      | some (v, rest) =>
          match skipWs rest with
          | ',' :: r => parseElements fuel r (v :: acc)
          | ']' :: r => some (.arr (v :: acc).reverse, r)
          | _ => none

/-- Comma-separated object members up to the closing brace. -/
def parseMembers : Nat → List Char → List (String × Json) → Option (Json × List Char)
  | 0, _, _ => none
  | Nat.succ fuel, cs, acc =>
      match skipWs cs with
      | '"' :: r =>
          match parseStringChars [] r with
          | none => none
          | some (key, rest) =>
              match skipWs rest with
              | ':' :: r2 =>
                  match parseValue fuel r2 with
                  | none => none
                  | some (v, rest2) =>
                      match skipWs rest2 with
                      | ',' :: r3 => parseMembers fuel r3 ((key, v) :: acc)
                      | '}' :: r3 => some (.obj ((key, v) :: acc).reverse, r3)
                      | _ => none
              | _ => none
      | _ => none

end

/-- `JSON.parse`: a single JSON value surrounded by only whitespace, or
failure (`none` = the thrown SyntaxError). -/
def jsonParse (s : String) : Option Json :=
  match parseValue (2 * s.length + 4) s.toList with
  | some (v, rest) => if (skipWs rest).isEmpty then some v else none
  | none => none

/-- The response post-processing of `analyzeAuditLogs` (llm-service.ts lines
119-126): parse the provider's text as JSON; if it parses to an array,
return its elements unchanged (`Array.isArray(insights) ? insights : ...`);
on a parse failure or a non-array value, wrap the raw text as a
single-element array. -/
def analyzeAuditLogsInsights (result : String) : List Json :=
  match jsonParse result with
  | some (.arr xs) => xs
  | _ => [Json.str result]

/-- `chatMessageSchema.parse`: `message` must be a string of length >= 1
(`z.string().min(1)`), `sessionId` an optional string. -/
def chatBodyValid (message sessionId : JsVal) : Bool :=
  (match message with
   | .str s => decide (1 ≤ s.length)
   | _ => false)
  &&
  (match sessionId with
   | .undef => true
   | .str _ => true
   | .other _ => false)

/-- The first externally visible step a handler takes: answer immediately
with a status, or proceed to its I/O (storage reads, upstream/network
calls). -/
inductive HandlerAction where
  | respond (status : Nat)
  | proceed
deriving DecidableEq

/-- POST /api/chat: the body is parsed with `chatMessageSchema` as the first
statement of the `try` block, before `storage.getAllAuditLogs()` or any
other I/O; a `ZodError` falls through to the generic catch, which answers
`res.status(500)`. -/
def postChatFirstAction (message sessionId : JsVal) : HandlerAction :=
  if chatBodyValid message sessionId then .proceed else .respond 500

/-- GET /api/audit-logs: `auditLogFilterSchema.parse` runs before the
session lookup and the upstream fetch; `size` (`parseInt(req.query.size)`
or default 50) must satisfy `min(1).max(100)`. A failed parse falls through
to the generic catch, which answers `res.status(500)`. The remaining query
fields are optional strings whose validation cannot fail on string inputs
and are not represented. -/
def auditLogsFirstAction (size : Option Int) : HandlerAction :=
  let sz := size.getD 50
  if 1 ≤ sz ∧ sz ≤ 100 then .proceed else .respond 500

/-- A sample upstream payload used to instantiate theorems. -/
def sampleSnykPayload : SnykConfigPayload :=
  ⟨"token-abc", some "grp-1", none, some "2024-10-15"⟩

/-- A sample LLM configuration used to instantiate theorems. -/
def sampleLlmConfig : LLMConfig :=
  ⟨"openai", "gpt-4o-mini", "sk-test", none⟩

/-- A session holding a live upstream config and a live llm config (both
expiring at t = 1800000). -/
def sessionWithBoth : Session :=
  { snykConfig := some ⟨"token-abc", some "grp-1", none, some "2024-10-15", 1800000⟩
    llmConfig := some ⟨"openai", "gpt-4o-mini", "sk-test", none, 1800000⟩
    createdAt := 0
    lastAccessed := 0 }

/-- Like `sessionWithBoth` but with different secret values (token and
apiKey) and everything else equal. -/
def sessionWithBothOtherSecrets : Session :=
  { snykConfig := some ⟨"token-xyz", some "grp-1", none, some "2024-10-15", 1800000⟩
    llmConfig := some ⟨"openai", "gpt-4o-mini", "sk-live-9", none, 1800000⟩
    createdAt := 0
    lastAccessed := 0 }

/-- An audit-log record dated in the future relative to t = 0. -/
def futureLog : AuditLog :=
  ⟨"org.user.add", 60000, none, none, none, none⟩

/-- An audit-log record more than 24 hours old relative to t = 0. -/
def staleLog : AuditLog :=
  ⟨"org.user.add", -100000000, none, none, none, none⟩

/-- An audit-log record created exactly at t = 0. -/
def freshLog : AuditLog :=
  ⟨"policy.edit", 0, none, none, none, some ⟨some "a@x.io", none⟩⟩

/-- An `LLMConfig` whose provider name is upper-case "GEMINI". -/
def geminiUpperConfig : LLMConfig :=
  ⟨"GEMINI", "gemini-2.0-flash", "key-1", none⟩

/-- Erase the token from a returned upstream payload. -/
def scrubPayload (p : SnykConfigPayload) : SnykConfigPayload :=
  { p with snykApiToken := "" }

/-- Erase the apiKey from a returned llm payload. -/
def scrubLlmPayload (c : LLMConfig) : LLMConfig :=
  { c with apiKey := "" }

/-- Whether a JSON value is a string. -/
def Json.isStr : Json → Bool
  | .str _ => true
  | _ => false

/-- Whether POST /api/llm-config rejects a body field with 400: the guard
`!v || typeof v !== "string"` fires when the field is absent, not a string,
or the (JS-falsy) empty string. -/
def llmFieldRejected : JsVal → Bool
  | .str v => v.isEmpty
  | _ => true

theorem getOrCreateSession_none (now : Int) :
    getOrCreateSession now none =
      { snykConfig := none, llmConfig := none, createdAt := now, lastAccessed := now } := rfl

theorem getOrCreateSession_some (now : Int) (sess : Session) :
    getOrCreateSession now (some sess) =
      if now - sess.lastAccessed > SESSION_TIMEOUT then
        { snykConfig := none, llmConfig := none, createdAt := now, lastAccessed := now }
      else { sess with lastAccessed := now } := rfl

theorem getOrCreateSession_lastAccessed (now : Int) (s : Option Session) :
    (getOrCreateSession now s).lastAccessed = now := by
  cases s with
  | none => rfl
  | some a =>
      rw [getOrCreateSession_some]
      split <;> rfl

/-- C1 (amended): with no intervening request between the set and the get,
`getConfig` after `setConfig(ttl = T)` returns the stored payload (expiry
stripped) exactly when the elapsed time is at most T minutes AND at most the
30-minute session idle timeout, and returns absent otherwise; in particular
at elapsed time exactly T minutes the payload is still returned (expiry is
strict: absent requires `now > expiresAt`), for both the upstream and the
llm kind. -/
theorem ttl_boundary_amended (s : Option Session) (t0 e T : Int)
    (scfg : SnykConfigPayload) (lcfg : LLMConfig) :
    ((getApiConfiguration (t0 + e) (setApiConfiguration t0 scfg T s)).1
      = if e ≤ SESSION_TIMEOUT ∧ e ≤ T * 60000 then some scfg else none)
    ∧ ((getLlmConfiguration (t0 + e) (setLlmConfiguration t0 lcfg T s)).1
      = if e ≤ SESSION_TIMEOUT ∧ e ≤ T * 60000 then some lcfg else none) := by
  have hla := getOrCreateSession_lastAccessed t0 s
  constructor
  · simp only [setApiConfiguration, getApiConfiguration, getOrCreateSession_some]
    simp only [hla, add_sub_cancel_left]
    split_ifs with h1 h2 h3 <;> (try dsimp only) <;>
      first
        | rfl
        | (exfalso; omega)
        | omega
        | (rw [if_neg (by omega)] <;> rfl)
        | (rw [if_pos (by omega)] <;> rfl)
  · simp only [setLlmConfiguration, getLlmConfiguration, getOrCreateSession_some]
    simp only [hla, add_sub_cancel_left]
    split_ifs with h1 h2 h3 <;> (try dsimp only) <;>
      first
        | rfl
        | (exfalso; omega)
        | omega
        | (rw [if_neg (by omega)] <;> rfl)
        | (rw [if_pos (by omega)] <;> rfl)

/-- C1 counterexample to the claim as stated: with ttl T = 30 minutes, at
elapsed time exactly T minutes (set at t = 0, get at t = 1800000 ms) the
code still returns the stored payload, where the claim requires absent for
elapsed >= T. -/
theorem ttl_boundary_claim_cex :
    (getApiConfiguration (30 * 60000) (setApiConfiguration 0 sampleSnykPayload 30 none)).1
      = some sampleSnykPayload := by decide

/-- C2 (amended): with a session that has not idle-expired, setting one
configuration kind leaves the other kind's stored sub-record (presence and
expiry) unchanged, in both directions; `clearLlmConfiguration` removes only
the llm sub-record and a live upstream sub-record stays retrievable; but
`clearConfiguration` (the upstream clear) removes the entire session record,
so afterwards the llm configuration is no longer retrievable either. -/
theorem kind_independence_amended (now : Int) (s : Option Session)
    (scfg : SnykConfigPayload) (lcfg : LLMConfig) (T : Int)
    (halive : ∀ sess, s = some sess → now - sess.lastAccessed ≤ SESSION_TIMEOUT) :
    ((setLlmConfiguration now lcfg T s).bind Session.snykConfig = s.bind Session.snykConfig)
    ∧ ((setApiConfiguration now scfg T s).bind Session.llmConfig = s.bind Session.llmConfig)
    ∧ ((clearLlmConfiguration now s).bind Session.snykConfig = s.bind Session.snykConfig)
    ∧ ((clearLlmConfiguration now s).bind Session.llmConfig = none)
    ∧ ((getApiConfiguration now (clearLlmConfiguration now s)).1 = (getApiConfiguration now s).1)
    ∧ (clearConfiguration now s = none)
    ∧ ((getLlmConfiguration now (clearConfiguration now s)).1 = none) := by
  cases s with
  | none =>
      have hc0 : ¬(now - now > SESSION_TIMEOUT) := by
        simp only [SESSION_TIMEOUT]
        omega
      refine ⟨?_, ?_, ?_, ?_, ?_, ?_, ?_⟩ <;>
        simp only [setLlmConfiguration, setApiConfiguration, clearLlmConfiguration,
          clearConfiguration, getApiConfiguration, getLlmConfiguration,
          getOrCreateSession_some, getOrCreateSession_none, if_neg hc0] <;>
        first | rfl | trivial
  | some sess =>
      have hc : ¬(now - sess.lastAccessed > SESSION_TIMEOUT) := by
        have := halive sess rfl
        omega
      have hc0 : ¬(now - now > SESSION_TIMEOUT) := by
        simp only [SESSION_TIMEOUT]
        omega
      refine ⟨?_, ?_, ?_, ?_, ?_, ?_, ?_⟩ <;>
        simp only [setLlmConfiguration, setApiConfiguration, clearLlmConfiguration,
          clearConfiguration, getApiConfiguration, getLlmConfiguration,
          getOrCreateSession_some, getOrCreateSession_none, if_neg hc, if_neg hc0] <;>
        first
          | rfl
          | trivial
          | (cases h : sess.snykConfig with
             | none => rfl
             | some c => dsimp only; split_ifs <;> rfl)

/-- C2 counterexample to the claim as stated: on a session holding a live
llm config and a live upstream config, clearing the upstream kind with
`clearConfiguration` destroys the whole session, so the llm sub-record -
retrievable immediately before - is no longer retrievable afterwards. -/
theorem clear_config_deletes_llm_cex :
    (getLlmConfiguration 0 (some sessionWithBoth)).1 = some sampleLlmConfig
    ∧ (getLlmConfiguration 0 (clearConfiguration 0 (some sessionWithBoth))).1 = none := by
  exact ⟨by decide, by decide⟩

/-- C2 witness: the amended independence theorem applied to a concrete live
session at t = 5. -/
theorem kind_independence_amended_witness :
    ((setLlmConfiguration 5 sampleLlmConfig 30 (some sessionWithBoth)).bind Session.snykConfig
        = (some sessionWithBoth : Option Session).bind Session.snykConfig)
    ∧ ((setApiConfiguration 5 sampleSnykPayload 30 (some sessionWithBoth)).bind Session.llmConfig
        = (some sessionWithBoth : Option Session).bind Session.llmConfig)
    ∧ ((clearLlmConfiguration 5 (some sessionWithBoth)).bind Session.snykConfig
        = (some sessionWithBoth : Option Session).bind Session.snykConfig)
    ∧ ((clearLlmConfiguration 5 (some sessionWithBoth)).bind Session.llmConfig = none)
    ∧ ((getApiConfiguration 5 (clearLlmConfiguration 5 (some sessionWithBoth))).1
        = (getApiConfiguration 5 (some sessionWithBoth)).1)
    ∧ (clearConfiguration 5 (some sessionWithBoth) = none)
    ∧ ((getLlmConfiguration 5 (clearConfiguration 5 (some sessionWithBoth))).1 = none) :=
  kind_independence_amended 5 (some sessionWithBoth) sampleSnykPayload sampleLlmConfig 30
    (fun sess h => by injection h with h2; rw [← h2]; decide)

theorem getOrCreateSession_scrub (now : Int) (s : Option Session) :
    getOrCreateSession now (s.map scrubSession) = scrubSession (getOrCreateSession now s) := by
  cases s with
  | none => rfl
  | some a =>
      have hla : (scrubSession a).lastAccessed = a.lastAccessed := rfl
      simp only [Option.map_some', getOrCreateSession_some, hla]
      split_ifs <;> rfl

theorem getApiConfiguration_scrub (now : Int) (s : Option Session) :
    getApiConfiguration now (s.map scrubSession)
      = (((getApiConfiguration now s).1).map scrubPayload,
         ((getApiConfiguration now s).2).map scrubSession) := by
  simp only [getApiConfiguration, getOrCreateSession_scrub]
  cases h : (getOrCreateSession now s).snykConfig with
  | none =>
      have h2 : (scrubSession (getOrCreateSession now s)).snykConfig = none := by
        simp only [scrubSession, h, Option.map_none']
      simp only [h, h2]
      rfl
  | some c =>
      have h2 : (scrubSession (getOrCreateSession now s)).snykConfig = some (scrubSnyk c) := by
        simp only [scrubSession, h, Option.map_some']
      have hexp : (scrubSnyk c).expiresAt = c.expiresAt := rfl
      simp only [h, h2, hexp]
      split_ifs <;> rfl

theorem getTimeUntilExpiration_fst_scrub (now : Int) (s : Option Session) :
    (getTimeUntilExpiration now (s.map scrubSession)).1 = (getTimeUntilExpiration now s).1 := by
  simp only [getTimeUntilExpiration, getOrCreateSession_scrub]
  cases h : (getOrCreateSession now s).snykConfig with
  | none =>
      have h2 : (scrubSession (getOrCreateSession now s)).snykConfig = none := by
        simp only [scrubSession, h, Option.map_none']
      simp only [h, h2]
  | some c =>
      have h2 : (scrubSession (getOrCreateSession now s)).snykConfig = some (scrubSnyk c) := by
        simp only [scrubSession, h, Option.map_some']
      simp only [h, h2]
      rfl

theorem getLlmConfiguration_scrub (now : Int) (s : Option Session) :
    getLlmConfiguration now (s.map scrubSession)
      = (((getLlmConfiguration now s).1).map scrubLlmPayload,
         ((getLlmConfiguration now s).2).map scrubSession) := by
  simp only [getLlmConfiguration, getOrCreateSession_scrub]
  cases h : (getOrCreateSession now s).llmConfig with
  | none =>
      have h2 : (scrubSession (getOrCreateSession now s)).llmConfig = none := by
        simp only [scrubSession, h, Option.map_none']
      simp only [h, h2]
      rfl
  | some c =>
      have h2 : (scrubSession (getOrCreateSession now s)).llmConfig = some (scrubLlm c) := by
        simp only [scrubSession, h, Option.map_some']
      have hexp : (scrubLlm c).expiresAt = c.expiresAt := rfl
      simp only [h, h2, hexp]
      split_ifs <;> rfl

theorem getConfigRoute_scrub (now : Int) (s : Option Session) :
    getConfigRoute now (s.map scrubSession) = getConfigRoute now s := by
  simp only [getConfigRoute, getApiConfiguration_scrub]
  rcases hap : getApiConfiguration now s with ⟨p, s2⟩
  cases p with
  | none => rfl
  | some payload =>
      simp only [Option.map_some']
      have h1 : (scrubPayload payload).groupId = payload.groupId := rfl
      have h2 : (scrubPayload payload).orgId = payload.orgId := rfl
      have h3 : (scrubPayload payload).apiVersion = payload.apiVersion := rfl
      simp only [h1, h2, h3, getTimeUntilExpiration_fst_scrub]

theorem getLlmRoute_scrub (now : Int) (s : Option Session) :
    getLlmRoute now (s.map scrubSession) = getLlmRoute now s := by
  simp only [getLlmRoute, getLlmConfiguration_scrub]
  cases h : (getLlmConfiguration now s).1 with
  | none => rfl
  | some c => rfl

theorem getTimeUntilExpiration_after_set (now T : Int) (cfg : SnykConfigPayload)
    (s : Option Session) :
    (getTimeUntilExpiration now (setApiConfiguration now cfg T s)).1
      = some (max 0 ((now + T * 60 * 1000 - now) / 60000)) := by
  have hc0 : ¬(now - now > SESSION_TIMEOUT) := by
    simp only [SESSION_TIMEOUT]
    omega
  simp only [setApiConfiguration, getTimeUntilExpiration, getOrCreateSession_some,
    getOrCreateSession_lastAccessed, if_neg hc0]

theorem postConfigRoute_fst_state_indep (now : Int) (s1 s2 : Option Session)
    (body : PostConfigBody) (connOk : Bool) (connMsg : String) :
    (postConfigRoute now s1 body connOk connMsg).1
      = (postConfigRoute now s2 body connOk connMsg).1 := by
  simp only [postConfigRoute, getTimeUntilExpiration_after_set]
  split_ifs <;> rfl

theorem postLlmRoute_fst_state_indep (now : Int) (s1 s2 : Option Session)
    (provider model apiKey baseUrl : JsVal) :
    (postLlmRoute now s1 provider model apiKey baseUrl).1
      = (postLlmRoute now s2 provider model apiKey baseUrl).1 := by
  cases provider <;> cases model <;> cases apiKey <;>
    simp only [postLlmRoute] <;>
    split_ifs <;> rfl

theorem getConfigRoute_token_masked (now : Int) (s : Option Session) (r : ConfigGetResponse)
    (h : getConfigRoute now s = some r) : r.snykApiToken = "***" := by
  revert h
  simp only [getConfigRoute]
  rcases hap : getApiConfiguration now s with ⟨p, s2⟩
  cases p with
  | none => intro h; cases h
  | some payload =>
      intro h
      injection h with h2
      rw [← h2]

theorem postConfigRoute_token_masked (now : Int) (s : Option Session) (body : PostConfigBody)
    (connOk : Bool) (connMsg : String) (r : ConfigGetResponse)
    (h : (postConfigRoute now s body connOk connMsg).1 = .ok r) : r.snykApiToken = "***" := by
  revert h
  simp only [postConfigRoute]
  split_ifs <;> intro h <;> (cases h <;> rfl)

/-- C3: the configuration endpoints never reveal a stored secret. For any
two store states that differ only in the secret values (equal after
scrubbing the token and apiKey), the GET /api/config, GET /api/llm-config,
POST /api/config and POST /api/llm-config responses are identical; moreover
every non-null GET/POST /api/config response carries the literal "***" as
`snykApiToken`, and the llm-config responses contain no apiKey field at all
(`LlmGetResponse` has only provider, model and configured). -/
theorem config_endpoints_secret_free (now : Int) (s1 s2 : Option Session)
    (hsec : s1.map scrubSession = s2.map scrubSession) :
    (getConfigRoute now s1 = getConfigRoute now s2)
    ∧ (getLlmRoute now s1 = getLlmRoute now s2)
    ∧ (∀ body connOk connMsg,
        (postConfigRoute now s1 body connOk connMsg).1
          = (postConfigRoute now s2 body connOk connMsg).1)
    ∧ (∀ provider model apiKey baseUrl,
        (postLlmRoute now s1 provider model apiKey baseUrl).1
          = (postLlmRoute now s2 provider model apiKey baseUrl).1)
    ∧ (∀ r, getConfigRoute now s1 = some r → r.snykApiToken = "***")
    ∧ (∀ body connOk connMsg r,
        (postConfigRoute now s1 body connOk connMsg).1 = .ok r → r.snykApiToken = "***") := by
  refine ⟨?_, ?_, ?_, ?_, ?_, ?_⟩
  · rw [← getConfigRoute_scrub now s1, ← getConfigRoute_scrub now s2, hsec]
  · rw [← getLlmRoute_scrub now s1, ← getLlmRoute_scrub now s2, hsec]
  · intro body connOk connMsg
    exact postConfigRoute_fst_state_indep now s1 s2 body connOk connMsg
  · intro provider model apiKey baseUrl
    exact postLlmRoute_fst_state_indep now s1 s2 provider model apiKey baseUrl
  · intro r h
    exact getConfigRoute_token_masked now s1 r h
  · intro body connOk connMsg r h
    exact postConfigRoute_token_masked now s1 body connOk connMsg r h

/-- C3 witness: the secret-freeness theorem applied to two concrete states
that differ only in the stored token and apiKey values. -/
theorem config_endpoints_secret_free_witness :
    (getConfigRoute 0 (some sessionWithBoth) = getConfigRoute 0 (some sessionWithBothOtherSecrets))
    ∧ (getLlmRoute 0 (some sessionWithBoth) = getLlmRoute 0 (some sessionWithBothOtherSecrets))
    ∧ (∀ body connOk connMsg,
        (postConfigRoute 0 (some sessionWithBoth) body connOk connMsg).1
          = (postConfigRoute 0 (some sessionWithBothOtherSecrets) body connOk connMsg).1)
    ∧ (∀ provider model apiKey baseUrl,
        (postLlmRoute 0 (some sessionWithBoth) provider model apiKey baseUrl).1
          = (postLlmRoute 0 (some sessionWithBothOtherSecrets) provider model apiKey baseUrl).1)
    ∧ (∀ r, getConfigRoute 0 (some sessionWithBoth) = some r → r.snykApiToken = "***")
    ∧ (∀ body connOk connMsg r,
        (postConfigRoute 0 (some sessionWithBoth) body connOk connMsg).1 = .ok r
          → r.snykApiToken = "***") :=
  config_endpoints_secret_free 0 (some sessionWithBoth) (some sessionWithBothOtherSecrets)
    (by decide)

/-- C4: `getProvider` is total over all configuration inputs: a null config,
or any of provider/model/apiKey empty or whitespace-only, yields the no-op
adapter; a provider name whose lower-casing is not a recognized alias also
yields the no-op adapter (never an error); a valid config whose provider
lower-cases to a Gemini-family alias (e.g. "GEMINI") routes to the
Gemini-family adapter; and the no-op adapter's generateText always returns
the fixed unconfigured message as a pure result, performing no network
request. -/
theorem provider_router_total :
    (getProvider none = .noop)
    ∧ (∀ cfg : LLMConfig,
        ((jsTrim cfg.provider).isEmpty || (jsTrim cfg.model).isEmpty
            || (jsTrim cfg.apiKey).isEmpty) = true
          → getProvider (some cfg) = .noop)
    ∧ (∀ cfg : LLMConfig, jsToLower cfg.provider ∉ recognizedProviders
          → getProvider (some cfg) = .noop)
    ∧ (∀ cfg : LLMConfig,
        ((jsTrim cfg.provider).isEmpty || (jsTrim cfg.model).isEmpty
            || (jsTrim cfg.apiKey).isEmpty) = false
          → (jsToLower cfg.provider == "gemini" || jsToLower cfg.provider == "google"
              || jsToLower cfg.provider == "google gemini") = true
          → getProvider (some cfg) = .gemini cfg)
    ∧ (∀ messages, generateText .noop messages = .pureText UNCONFIGURED_MESSAGE) := by
  refine ⟨rfl, ?_, ?_, ?_, fun messages => rfl⟩
  · intro cfg h
    simp [getProvider, h]
  · intro cfg h
    simp only [recognizedProviders, List.mem_cons, List.not_mem_nil, or_false] at h
    push_neg at h
    obtain ⟨n1, n2, n3, n4, n5, n6, n7⟩ := h
    simp only [getProvider, Bool.or_eq_true, beq_iff_eq]
    split_ifs <;> first | rfl | (exfalso; tauto)
  · intro cfg hval hgem
    simp only [getProvider, hval, hgem, Bool.false_eq_true, if_false, if_true]

/-- C4 witness: the router theorem applied to concrete configurations: a
whitespace-only provider, an unrecognized provider name, the upper-case
"GEMINI" name, and the no-op adapter on a concrete message list. -/
theorem provider_router_total_witness :
    getProvider (some ⟨" ", "gpt-4o-mini", "sk-test", none⟩) = .noop
    ∧ getProvider (some ⟨"mistral", "mistral-large", "sk-test", none⟩) = .noop
    ∧ getProvider (some geminiUpperConfig) = .gemini geminiUpperConfig
    ∧ generateText .noop [⟨.user, "hi"⟩] = .pureText UNCONFIGURED_MESSAGE :=
  ⟨provider_router_total.2.1 _ (by decide),
   provider_router_total.2.2.1 _ (by decide),
   provider_router_total.2.2.2.1 _ (by decide) (by decide),
   provider_router_total.2.2.2.2 _⟩

/-- C5 (amended): requests with malformed parameters are rejected before any
I/O - the handler's first action is an immediate response, never a storage
or upstream call - but the response status is 500, not a 400-class status:
the schema-validation error thrown by `parse` falls through to the
handler's generic catch (`res.status(500)`). Covers POST /api/chat (message
must be a string of length >= 1) and GET /api/audit-logs (size must lie in
1..100). -/
theorem validation_before_io_amended :
    (∀ message sessionId, chatBodyValid message sessionId = false
        → postChatFirstAction message sessionId = .respond 500
          ∧ postChatFirstAction message sessionId ≠ .proceed)
    ∧ (∀ size : Option Int, ¬(1 ≤ size.getD 50 ∧ size.getD 50 ≤ 100)
        → auditLogsFirstAction size = .respond 500
          ∧ auditLogsFirstAction size ≠ .proceed) := by
  constructor
  · intro message sessionId h
    constructor
    · simp [postChatFirstAction, h]
    · simp [postChatFirstAction, h]
  · intro size h
    constructor
    · simp only [auditLogsFirstAction, if_neg h]
    · simp only [auditLogsFirstAction, if_neg h]
      exact fun hc => HandlerAction.noConfusion hc

/-- C5 witness: the amended theorem applied to an empty chat message and an
out-of-range audit-logs size. -/
theorem validation_before_io_amended_witness :
    (postChatFirstAction (.str "") .undef = .respond 500
      ∧ postChatFirstAction (.str "") .undef ≠ .proceed)
    ∧ (auditLogsFirstAction (some 1000) = .respond 500
      ∧ auditLogsFirstAction (some 1000) ≠ .proceed) :=
  ⟨validation_before_io_amended.1 (.str "") .undef (by decide),
   validation_before_io_amended.2 (some 1000) (by decide)⟩

/-- C5 counterexample to the claim as stated: POST /api/chat with an empty
message string answers with HTTP status 500, which is not a 400-class
status (the claim requires a 400-class response for malformed
parameters). -/
theorem validation_status_cex :
    postChatFirstAction (.str "") .undef = .respond 500 ∧ ¬(500 ≤ 499) := by
  exact ⟨by decide, by decide⟩

/-- C6 (amended): given an empty message sequence, the Gemini adapter
substitutes a single empty-content user entry into its outgoing `contents`,
but the OpenAI and Anthropic adapters perform no such substitution: they
send an empty message list (and, for Anthropic, no system field)
unchanged. -/
theorem empty_messages_adapters :
    geminiContents [] = [⟨"user", [""]⟩]
    ∧ openAiMessages [] = []
    ∧ anthropicApiMessages [] = []
    ∧ anthropicSystemField [] = none := by
  exact ⟨rfl, rfl, rfl, rfl⟩

/-- C6 counterexample to the claim as stated: the OpenAI adapter, called
with an empty message sequence, puts an empty message list into its
outgoing request rather than a single empty-content user message (and the
Anthropic adapter does the same), so the substitution claim fails for two
of the three adapters. -/
theorem openai_no_substitution_cex :
    openAiMessages [] ≠ [⟨"user", ""⟩]
    ∧ generateText (.openai sampleLlmConfig) []
        = .openaiCall "https://api.openai.com/v1/chat/completions" "gpt-4o-mini" []
    ∧ anthropicApiMessages [] ≠ [⟨"user", ""⟩] := by
  refine ⟨by decide, by decide, by decide⟩

/-- C7 (amended): the insight post-processing is total and never throws:
for every provider response text it either returns the elements of the
JSON array the text parses to (elements that need not be strings), or -
when parsing fails or yields a non-array - the raw text wrapped as a
single-element string array. In particular the response "[\"a\",\"b\"]"
yields the two strings a, b and the response "not json" yields itself
wrapped. -/
theorem insights_shape_amended :
    (∀ result : String,
        (∃ xs, jsonParse result = some (Json.arr xs) ∧ analyzeAuditLogsInsights result = xs)
        ∨ analyzeAuditLogsInsights result = [Json.str result])
    ∧ analyzeAuditLogsInsights "[\"a\",\"b\"]" = [Json.str "a", Json.str "b"]
    ∧ analyzeAuditLogsInsights "not json" = [Json.str "not json"] := by
  refine ⟨?_, ?_, ?_⟩
  · intro result
    simp only [analyzeAuditLogsInsights]
    cases h : jsonParse result with
    | none => exact Or.inr rfl
    | some v =>
        cases v with
        | arr xs => exact Or.inl ⟨xs, rfl, rfl⟩
        | null => exact Or.inr rfl
        | bool b => exact Or.inr rfl
        | num lx => exact Or.inr rfl
        | str s => exact Or.inr rfl
        | obj ms => exact Or.inr rfl
  · rfl
  · rfl

/-- C7 witness: the shape theorem instantiated at a concrete response
text. -/
theorem insights_shape_amended_witness :
    (∃ xs, jsonParse "xyz" = some (Json.arr xs) ∧ analyzeAuditLogsInsights "xyz" = xs)
    ∨ analyzeAuditLogsInsights "xyz" = [Json.str "xyz"] :=
  insights_shape_amended.1 "xyz"

/-- C7 counterexample to the claim as stated: the response "[1,2]" parses
to a JSON array of numbers, which is returned as-is, so the operation's
result is not a sequence of strings. -/
theorem insights_nonstring_cex :
    analyzeAuditLogsInsights "[1,2]" = [Json.num "1", Json.num "2"]
    ∧ (analyzeAuditLogsInsights "[1,2]").all Json.isStr = false := by
  exact ⟨rfl, rfl⟩

/-- C8 (amended): for every input collection in which every record is
strictly older than 24 hours (created < now - 24h), the executive summary
short-circuits with the fixed no-recent-logs message and never reaches the
provider call (no getProvider / generateText, no network request). The
code's recency filter is `created >= now - 24h`, so records dated in the
future also count as recent - see the counterexample. -/
theorem no_recent_logs_short_circuit (now : Int) (logs : List AuditLog)
    (h : ∀ l ∈ logs, l.created < now - 86400000) :
    generateExecutiveSummaryAction now logs = .fixedMessage noRecentLogsMessage := by
  have hfilter : logs.filter (isRecent now) = [] := by
    rw [List.filter_eq_nil_iff]
    intro a ha
    have := h a ha
    simp only [isRecent, decide_eq_true_eq]
    omega
  simp [generateExecutiveSummaryAction, hfilter]

/-- C8 witness: the short-circuit theorem applied to a single record more
than 24 hours old, at now = 0. -/
theorem no_recent_logs_short_circuit_witness :
    generateExecutiveSummaryAction 0 [staleLog] = .fixedMessage noRecentLogsMessage :=
  no_recent_logs_short_circuit 0 [staleLog] (by decide)

/-- C8 counterexample to the claim as stated: a record dated one minute in
the future (created = 60000 at now = 0) has no created timestamp within the
last 24 hours, yet it passes the `created >= now - 24h` filter, so the
summary does not short-circuit: it proceeds to the provider call instead of
returning the fixed message. -/
theorem future_log_cex :
    futureLog.created > 0
    ∧ generateExecutiveSummaryAction 0 [futureLog]
        = .providerCall ⟨1, 1, "org.user.add: 1"⟩
    ∧ generateExecutiveSummaryAction 0 [futureLog] ≠ .fixedMessage noRecentLogsMessage := by
  exact ⟨by decide, by decide, by decide⟩

/-- C9: the executive-summary action depends only on the first 200 records
of the recency-filtered input: whenever two inputs agree on the first 200
recent records, the whole action - the short-circuit decision and every
statistic embedded in the prompt (event total, distinct-user count,
top-five events) - coincides, so recent records beyond the first 200 have
no effect on the prompt statistics. -/
theorem summary_first200_stats (now : Int) (l1 l2 : List AuditLog)
    (h : (l1.filter (isRecent now)).take 200 = (l2.filter (isRecent now)).take 200) :
    generateExecutiveSummaryAction now l1 = generateExecutiveSummaryAction now l2 := by
  have he : (l1.filter (isRecent now)) = [] ↔ (l2.filter (isRecent now)) = [] := by
    constructor <;> intro hh
    · have h' := h
      rw [hh, List.take_nil] at h'
      rcases List.take_eq_nil_iff.mp h'.symm with h200 | hnil
      · exact absurd h200 (by norm_num)
      · exact hnil
    · have h' := h
      rw [hh, List.take_nil] at h'
      rcases List.take_eq_nil_iff.mp h' with h200 | hnil
      · exact absurd h200 (by norm_num)
      · exact hnil
  simp only [generateExecutiveSummaryAction]
  by_cases h1 : l1.filter (isRecent now) = []
  · have h2 := he.mp h1
    rw [h1, h2]
  · have h2 : ¬(l2.filter (isRecent now) = []) := fun hh => h1 (he.mpr hh)
    rw [if_neg (by simpa [List.isEmpty_iff] using h1),
        if_neg (by simpa [List.isEmpty_iff] using h2), h]

/-- C9 witness: the first-200 theorem applied to a one-record input and the
same input extended by a record outside the 24-hour window. -/
theorem summary_first200_stats_witness :
    generateExecutiveSummaryAction 0 [freshLog]
      = generateExecutiveSummaryAction 0 [freshLog, staleLog] :=
  summary_first200_stats 0 [freshLog] [freshLog, staleLog] (by decide)

/-- C10 (amended): POST /api/llm-config accepts whitespace-only (nonempty)
provider, model and apiKey values with a 200 response and stores them
trimmed (whitespace-only values become empty strings); whenever any of the
three stored values is trimmed to empty - a whitespace-only provider, model
OR apiKey - every subsequent generation call through the stored
configuration routes to the no-op adapter and returns the fixed
unconfigured message without contacting a provider; and the 400 rejection
fires exactly when a field is absent, not a string, or an empty string,
leaving the store untouched. -/
theorem llm_config_whitespace_amended (now : Int) (s : Option Session) (p m k : String)
    (hp : p.isEmpty = false) (hm : m.isEmpty = false) (hk : k.isEmpty = false) :
    ((postLlmRoute now s (.str p) (.str m) (.str k) .undef).1
        = .ok ⟨jsTrim p, jsTrim m, true⟩)
    ∧ ((getLlmConfiguration now (postLlmRoute now s (.str p) (.str m) (.str k) .undef).2).1
        = some ⟨jsTrim p, jsTrim m, jsTrim k, none⟩)
    ∧ (((jsTrim p).isEmpty || (jsTrim m).isEmpty || (jsTrim k).isEmpty) = true →
        ∀ messages,
          generateText (getProvider ((getLlmConfiguration now
              (postLlmRoute now s (.str p) (.str m) (.str k) .undef).2).1)) messages
            = .pureText UNCONFIGURED_MESSAGE)
    ∧ (∀ provider model apiKey baseUrl,
        (llmFieldRejected provider || llmFieldRejected model || llmFieldRejected apiKey) = true
          → postLlmRoute now s provider model apiKey baseUrl
              = (.badRequest "provider, model, and apiKey are required", s)) := by
  have hc0 : ¬(now - now > SESSION_TIMEOUT) := by
    simp only [SESSION_TIMEOUT]
    omega
  have hexp : ¬(now > now + 30 * 60 * 1000) := by omega
  have hroute : postLlmRoute now s (.str p) (.str m) (.str k) .undef
      = (.ok ⟨jsTrim p, jsTrim m, true⟩,
         setLlmConfiguration now ⟨jsTrim p, jsTrim m, jsTrim k, none⟩ 30 s) := by
    simp [postLlmRoute, hp, hm, hk]
  have hget : (getLlmConfiguration now
      (setLlmConfiguration now ⟨jsTrim p, jsTrim m, jsTrim k, none⟩ 30 s)).1
      = some ⟨jsTrim p, jsTrim m, jsTrim k, none⟩ := by
    simp only [setLlmConfiguration, getLlmConfiguration, getOrCreateSession_some,
      getOrCreateSession_lastAccessed, if_neg hc0]
    try dsimp only
    rw [if_neg hexp]
    rfl
  refine ⟨?_, ?_, ?_, ?_⟩
  · rw [hroute]
  · rw [hroute]
    exact hget
  · intro hw messages
    rw [hroute]
    try dsimp only
    rw [hget]
    have key : ∀ x : String, (jsTrim x).isEmpty = true → (jsTrim (jsTrim x)).isEmpty = true := by
      intro x hx
      have hx0 : jsTrim x = "" := (String.isEmpty_iff _).mp hx
      rw [hx0]
      try decide
    have hcond : ((jsTrim (jsTrim p)).isEmpty || (jsTrim (jsTrim m)).isEmpty
        || (jsTrim (jsTrim k)).isEmpty) = true := by
      simp only [Bool.or_eq_true] at hw ⊢
      rcases hw with (h | h) | h
      · exact Or.inl (Or.inl (key p h))
      · exact Or.inl (Or.inr (key m h))
      · exact Or.inr (key k h)
    have hnoop : getProvider (some ⟨jsTrim p, jsTrim m, jsTrim k, none⟩) = .noop := by
      simp [getProvider, hcond]
    rw [hnoop] <;> rfl
  · intro provider model apiKey baseUrl h
    cases provider <;> cases model <;> cases apiKey <;>
      first
        | rfl
        | (simp only [llmFieldRejected] at h
           simp only [postLlmRoute]
           rw [if_pos h])

/-- C10 witness: the theorem applied concretely: a whitespace-only provider
and a whitespace-only model (each stored trimmed-empty, each routing a
subsequent generation call to the fixed unconfigured message), an absent
provider field, a non-string model field, and an empty-string apiKey field
(each rejected with 400, store untouched). -/
theorem llm_config_whitespace_amended_witness :
    ((postLlmRoute 0 none (.str " ") (.str "model-x") (.str "key-y") .undef).1
        = .ok ⟨jsTrim " ", jsTrim "model-x", true⟩)
    ∧ ((getLlmConfiguration 0
          (postLlmRoute 0 none (.str " ") (.str "model-x") (.str "key-y") .undef).2).1
        = some ⟨jsTrim " ", jsTrim "model-x", jsTrim "key-y", none⟩)
    ∧ (generateText (getProvider ((getLlmConfiguration 0
          (postLlmRoute 0 none (.str " ") (.str "model-x") (.str "key-y") .undef).2).1)) []
        = .pureText UNCONFIGURED_MESSAGE)
    ∧ (generateText (getProvider ((getLlmConfiguration 0
          (postLlmRoute 0 none (.str "openai") (.str " ") (.str "key-y") .undef).2).1)) []
        = .pureText UNCONFIGURED_MESSAGE)
    ∧ (postLlmRoute 0 none .undef (.str "gpt-4o-mini") (.str "sk-test") .undef
        = (.badRequest "provider, model, and apiKey are required", none))
    ∧ (postLlmRoute 0 none (.str "openai") (.other true) (.str "sk-test") .undef
        = (.badRequest "provider, model, and apiKey are required", none))
    ∧ (postLlmRoute 0 none (.str "openai") (.str "gpt-4o-mini") (.str "") .undef
        = (.badRequest "provider, model, and apiKey are required", none)) :=
  have h1 := llm_config_whitespace_amended 0 none " " "model-x" "key-y"
    (by decide) (by decide) (by decide)
  have h2 := llm_config_whitespace_amended 0 none "openai" " " "key-y"
    (by decide) (by decide) (by decide)
  ⟨h1.1, h1.2.1,
   h1.2.2.1 (by decide) [],
   h2.2.2.1 (by decide) [],
   h1.2.2.2 .undef (.str "gpt-4o-mini") (.str "sk-test") .undef (by decide),
   h1.2.2.2 (.str "openai") (.other true) (.str "sk-test") .undef (by decide),
   h1.2.2.2 (.str "openai") (.str "gpt-4o-mini") (.str "") .undef (by decide)⟩

/-- C10 counterexample to the claim as stated: an empty-string provider
field - present in the body and of string type - is also rejected with 400,
so the 400 rejection does not fire only on absent or non-string fields. -/
theorem llm_config_empty_string_cex :
    (postLlmRoute 0 none (.str "") (.str "gpt-4o-mini") (.str "sk-test") .undef).1
      = .badRequest "provider, model, and apiKey are required" := by decide

/-- C1 witness: the TTL characterization applied at a concrete set time,
ttl and elapsed time (one minute after a 30-minute set). -/
theorem ttl_boundary_amended_witness :
    ((getApiConfiguration (0 + 60000) (setApiConfiguration 0 sampleSnykPayload 30 none)).1
      = if (60000 : Int) ≤ SESSION_TIMEOUT ∧ (60000 : Int) ≤ 30 * 60000
        then some sampleSnykPayload else none)
    ∧ ((getLlmConfiguration (0 + 60000) (setLlmConfiguration 0 sampleLlmConfig 30 none)).1
      = if (60000 : Int) ≤ SESSION_TIMEOUT ∧ (60000 : Int) ≤ 30 * 60000
        then some sampleLlmConfig else none) :=
  ttl_boundary_amended none 0 60000 30 sampleSnykPayload sampleLlmConfig
